import Mathlib

/-!
Verification of the TP2.0 diagnostics gateway (RNS-E-Hudiy).

Shallow embedding of the three core source files:
  - src/tp2/tp2_protocol.py  (class TP2Protocol: channel setup, block transfer,
    reassembly, keep-alive),
  - src/tp2/tp2_coding.py    (class TP2Coding: measuring-block decoder),
  - src/tp2/tp2_worker.py    (class TP2Service: sessions, subscriptions,
    polling loop, command surface).

CAN I/O is modelled by passing the sequence of frames that arrive on the
id the code listens to (a script); a missing/exhausted script models the
receive timeout.  Frames the code transmits are side effects with no
influence on later receives, so they are dropped from the model except
where a claim mentions them.  Python floats are modelled by exact
rationals, taking each decimal literal at its decimal value.
-/

namespace TP2

/-- Data bytes of one CAN frame as the code sees them (list(msg.data)). -/
abbrev Frame := List Nat

/-- Mutable state of class TP2Protocol (tp2_protocol.py, __init__ lines 28-41):
tester id, dynamic tx/rx ids, the two 4-bit sequence counters and the
connected flag.  block_size / t1 / t3 only feed timing and are omitted. -/
structure Channel where
  tester_id : Nat
  tx_id : Nat
  rx_id : Nat
  seq_tx : Nat
  seq_rx : Nat
  connected : Bool
deriving Repr, DecidableEq

/-- TP2Protocol.__init__: the only parameter is the CAN channel name; the
tester id is hard-coded to 0x300, ids and counters start at 0. -/
def tp2Init : Channel :=
  { tester_id := 0x300, tx_id := 0x000, rx_id := 0x000,
    seq_tx := 0, seq_rx := 0, connected := false }

/-- Keyword parameters accepted by TP2Protocol.__init__
(tp2_protocol.py line 28: def init with self and channel only). -/
def tp2ProtocolInitParams : List String := ["channel"]

/-- Keyword arguments the worker passes when it constructs the protocol for a
new session (tp2_worker.py line 75: TP2Protocol with channel and tester_id). -/
def workerProtocolCallKwargs : List String := ["channel", "tester_id"]

/-- The broadcast channel-setup request frame (tp2_protocol.py line 102). -/
def connectRequestFrame (target : Nat) : Frame :=
  [target, 0xC0, 0x00, 0x10, 0x00, 0x03, 0x01]

/-- The timing-parameter frame sent after the 0xD0 reply
(tp2_protocol.py line 155). -/
def paramFrame : Frame := [0xA0, 0x0F, 0x8A, 0xFF, 0x32, 0xFF]

/-- TP2Protocol.connect (tp2_protocol.py lines 93-169).  `resp` is the frame
received on 0x201 (none: timeout), `resp2` the frame received on the new rx
id after the parameter frame was sent.  Returns the boolean result together
with the channel state after the call.  Frame bytes are read with getD 0;
the frames the code handles here are 7 bytes long, so every index the code
touches exists. -/
def connect (ch : Channel) (target : Nat) (resp resp2 : Option Frame) :
    Bool × Channel :=
  let _req := connectRequestFrame target
  match resp with
  | none => (false, ch)
  | some r =>
    if r.getD 0 0 ≠ 0x00 ∨ r.getD 1 0 ≠ 0xD0 then (false, ch)
    else
      -- lines 117-144: rx_id and tx_id are assigned twice; the net effect is
      -- tx_id = (resp[5] <<< 8) ||| resp[4], rx_id = tester_id.
      let ch1 := { ch with rx_id := ((r.getD 5 0) <<< 8) + (r.getD 4 0) }
      let ch2 := { ch1 with tx_id := ch1.rx_id }
      let ch3 := { ch2 with tx_id := ((r.getD 5 0) <<< 8) ||| (r.getD 4 0),
                            rx_id := ch.tester_id }
      match resp2 with
      | none => (false, ch3)
      | some p =>
        if p.getD 0 0 ≠ 0xA1 then (false, ch3)
        else (true, { ch3 with connected := true, seq_tx := 0, seq_rx := 0 })

/-- Errors raised by the protocol layer (exception TP2Error, distinguished
by the site that raises it). -/
inductive TPErr where
  | timeout
  | noAck
  | disconnected
  | notConnected
deriving Repr, DecidableEq

/-- Python list slicing l[:n] for a possibly negative n: a negative bound
counts from the end of the list, clamped at 0. -/
def pySlice (n : Int) (l : List Nat) : List Nat :=
  if 0 ≤ n then l.take n.toNat else l.take (l.length - n.natAbs)

/-- TP2Protocol._read_multiframe_response (tp2_protocol.py lines 323-398).
One loop iteration consumes exactly one received frame, so the loop is
structural recursion over the receive script; an exhausted script is the
T1 timeout.  ACK frames the code sends back and the 0xA1 reply to a
keep-alive are unobservable sends and are dropped; the 0x9N branch only
re-arms the timer.  On 0xA8 the code calls disconnect() and raises. -/
def readMF (script : List Frame) (buffer : List Nat) (expectedLen : Nat) :
    Except TPErr (List Nat) :=
  match script with
  | [] => .error .timeout
  | msg :: rest =>
    let b0 := msg.getD 0 0
    if b0 &&& 0xF0 = 0xB0 then
      -- stray ACK: continue
      readMF rest buffer expectedLen
    else if b0 = 0xA3 then
      -- keep-alive from ECU: reply 0xA1 (send dropped) and continue
      readMF rest buffer expectedLen
    else if b0 = 0xA8 then
      .error .disconnected
    else
      let type0 := b0 &&& 0xF0
      if type0 = 0x10 then
        if msg.length < 4 then readMF rest buffer expectedLen
        else
          let curLen := ((msg.getD 1 0) <<< 8) + (msg.getD 2 0)
          let expectedLen1 := if expectedLen = 0 then curLen else expectedLen
          let dataPart := msg.drop 3
          let needed : Int := (expectedLen1 : Int) - (buffer.length : Int)
          let dataPart1 :=
            if (dataPart.length : Int) > needed then pySlice needed dataPart
            else dataPart
          let buffer1 := buffer ++ dataPart1
          if buffer1.length ≥ expectedLen1 then .ok buffer1
          else readMF rest buffer1 expectedLen1
      else if type0 = 0x20 then
        readMF rest (buffer ++ msg.drop 1) expectedLen
      else if type0 = 0x90 then
        -- wait indication: timer re-armed, nothing consumed as payload
        readMF rest buffer expectedLen
      else
        -- unknown frame type: logged and ignored
        readMF rest buffer expectedLen

/-- TP2Protocol._wait_ack (tp2_protocol.py lines 315-321): one frame is read
on the rx id and compared against 0xB0 + ((seq_num + 1) mod 16); seq_num is
an int in Python (the caller passes seq_tx - 1, which can be -1). -/
def waitAck (seqNum : Int) (resp : Option Frame) : Bool :=
  match resp with
  | none => false
  | some msg => decide ((msg.getD 0 0 : Int) = 0xB0 + (seqNum + 1) % 16)

/-- The single TP2.0 frame a KWP request is wrapped in
(tp2_protocol.py line 302). -/
def requestFrame (ch : Channel) (payload : List Nat) : Frame :=
  [0x10 + ch.seq_tx, 0x00, payload.length] ++ payload

/-- TP2Protocol.send_kvp_request (tp2_protocol.py lines 180-313, executable
tail from line 292): raise if not connected; send the wrapped frame and
post-increment seq_tx mod 16; wait for the block ACK (consuming the first
script frame); then reassemble the response.  The channel is marked
disconnected only when reassembly saw 0xA8. -/
def sendKvpRequest (ch : Channel) (payload : List Nat) (script : List Frame) :
    Except TPErr (List Nat) × Channel :=
  if ch.connected = false then (.error .notConnected, ch)
  else
    let _frame := requestFrame ch payload
    let ch1 := { ch with seq_tx := (ch.seq_tx + 1) % 16 }
    if waitAck ((ch1.seq_tx : Int) - 1) script.head? = false then
      (.error .noAck, ch1)
    else
      match readMF (script.drop 1) [] 0 with
      | .ok buf => (.ok buf, ch1)
      | .error .disconnected => (.error .disconnected, { ch1 with connected := false })
      | .error e => (.error e, ch1)

/-- TP2Protocol.send_keep_alive (tp2_protocol.py lines 400-423): send 0xA3,
read one frame on the rx id.  No reply: return False (state untouched).
0xA8: disconnect (connected := false) and return False.  Anything other
than 0xA1 / 0x93: return False.  Otherwise True. -/
def sendKeepAlive (ch : Channel) (resp : Option Frame) : Bool × Channel :=
  if ch.tx_id ≠ 0 then
    match resp with
    | none => (false, ch)
    | some r =>
      if r.getD 0 0 = 0xA8 then (false, { ch with connected := false })
      else if r.getD 0 0 ≠ 0xA1 ∧ r.getD 0 0 ≠ 0x93 then (false, ch)
      else (true, ch)
  else (false, ch)

/-! ## Measuring-block decoder (tp2_coding.py) -/

/-- A Python value as produced by TP2Coding.decode_value: either a number
(int or float, both modelled as an exact rational) or a string. -/
inductive PyVal where
  | num (q : ℚ)
  | str (s : String)
deriving Repr, DecidableEq

/-- Python round(x, 2) on the values this decoder produces: round to the
nearest hundredth.  (CPython rounds the underlying binary float half to
even; every claim about values only needs that the result is within 1/200
of the unrounded value, which holds for any nearest rounding.) -/
def pyRound2 (q : ℚ) : ℚ := ((round (q * 100) : ℤ) : ℚ) / 100

/-- One uppercase hexadecimal digit. -/
def hexDigit (n : Nat) : Char :=
  if n < 10 then Char.ofNat (48 + n) else Char.ofNat (55 + n)

/-- Python format spec 02X for a byte value (0..255): two uppercase hex
digits. -/
def toHex2 (n : Nat) : String :=
  String.mk [hexDigit (n / 16), hexDigit (n % 16)]

/-- The fallback string of decode_value for a type not in the table. -/
def hexLit (a b : Nat) : String := "0x" ++ toHex2 a ++ toHex2 b

/-- TP2Coding.decode_value (tp2_coding.py lines 36-133).  The if/elif chain
is mirrored branch by branch; Python applies round(val, 2) only where val
is a float, so integer-valued branches (types 26, 56, 33 with a = 0, and
the two string branches) are not rounded. -/
def decodeValue (t a b : Nat) : PyVal × String :=
  if t = 1 then
    (.num (pyRound2 (((a : ℚ) * b) / 5)), "rpm")
  else if t = 2 ∨ t = 20 ∨ t = 23 ∨ t = 33 then
    let v : PyVal :=
      if t = 2 then .num (pyRound2 ((a : ℚ) * 0.002 * b))
      else if t = 20 then .num (pyRound2 ((a : ℚ) * ((b : ℚ) - 128) / 128))
      else if t = 23 then .num (pyRound2 (((b : ℚ) / 256) * a))
      else if a ≠ 0 then .num (pyRound2 (100 * (b : ℚ) / a))
      else .num ((100 * b : Nat) : ℚ)
    (v, "%")
  else if t = 3 ∨ t = 9 ∨ t = 27 ∨ t = 34 ∨ t = 67 then
    let v : PyVal :=
      if t = 3 then .num (pyRound2 (0.002 * a * b))
      else if t = 9 then .num (pyRound2 (((b : ℚ) - 127) * 0.02 * a))
      else if t = 27 then .num (pyRound2 (|(b : ℚ) - 128| * 0.01 * a))
      else if t = 34 then .num (pyRound2 (((b : ℚ) - 128) * 0.01 * a))
      else .num (pyRound2 ((640 * (a : ℚ)) + b * 2.5))
    if t = 34 then (v, "kW") else (v, "deg")
  else if t = 5 then
    (.num (pyRound2 ((a : ℚ) * ((b : ℚ) - 100) * 0.1)), "°C")
  else if t = 6 ∨ t = 21 ∨ t = 43 ∨ t = 66 then
    let v : PyVal :=
      if t = 6 ∨ t = 21 then .num (pyRound2 (0.001 * a * b))
      else if t = 43 then .num (pyRound2 ((b : ℚ) * 0.1 + 25.5 * a))
      else .num (pyRound2 (((a : ℚ) * b) / 511.12))
    (v, "V")
  else if t = 7 then
    (.num (pyRound2 (((a : ℚ) * b) / 100)), "km/h")
  else if t = 15 then
    (.num (pyRound2 ((a : ℚ) * b * 0.01)), "ms")
  else if t = 18 then
    (.num (pyRound2 (0.04 * (a : ℚ) * b)), "mbar")
  else if t = 19 then
    (.num (pyRound2 ((a : ℚ) * b * 0.01)), "l")
  else if t = 25 then
    (.num (pyRound2 ((a : ℚ) / 182 + 1.421 * b)), "g/s")
  else if t = 26 then
    (.num (((b : ℤ) - (a : ℤ) : ℤ) : ℚ), "°C")
  else if t = 35 then
    (.num (pyRound2 (0.01 * (a : ℚ) * b)), "l/h")
  else if t = 36 then
    (.str (Nat.repr a ++ " " ++ Nat.repr b), "km")
  else if t = 52 then
    (.num (pyRound2 ((b : ℚ) * 0.02 * a - a)), "Nm")
  else if t = 56 then
    (.num ((a * 256 + b : Nat) : ℚ), "WSC")
  else if t = 83 then
    (.num (pyRound2 (((a * 256 + b : Nat) : ℚ) * 0.01)), "bar")
  else
    (.str (hexLit a b), "Type_" ++ Nat.repr t)

/-- TP2Coding.decode_block (tp2_coding.py lines 11-34): decode (type, A, B)
triplets left to right, dropping a trailing partial triplet.  Each result
record {value, unit, type} is a triple. -/
def decodeBlock : List Nat → List (PyVal × String × Nat)
  | t :: a :: b :: rest =>
    let vu := decodeValue t a b
    (vu.1, vu.2, t) :: decodeBlock rest
  | _ => []

/-- The decoding table of spec section 4.4, written from the spec's own
formula column: for each numeric row the exact formula and unit.  Rows 36
(string row) and types absent from the table yield none. -/
def specFormula (t a b : Nat) : Option (ℚ × String) :=
  if t = 1 then some (((a : ℚ) * b) / 5, "rpm")
  else if t = 2 then some (0.002 * (a : ℚ) * b, "%")
  else if t = 3 then some (0.002 * (a : ℚ) * b, "deg")
  else if t = 5 then some (0.1 * (a : ℚ) * ((b : ℚ) - 100), "°C")
  else if t = 6 then some (0.001 * (a : ℚ) * b, "V")
  else if t = 7 then some (((a : ℚ) * b) / 100, "km/h")
  else if t = 9 then some (0.02 * (a : ℚ) * ((b : ℚ) - 127), "deg")
  else if t = 15 then some (0.01 * (a : ℚ) * b, "ms")
  else if t = 18 then some (0.04 * (a : ℚ) * b, "mbar")
  else if t = 19 then some (0.01 * (a : ℚ) * b, "l")
  else if t = 20 then some ((a : ℚ) * ((b : ℚ) - 128) / 128, "%")
  else if t = 21 then some (0.001 * (a : ℚ) * b, "V")
  else if t = 23 then some (((b : ℚ) / 256) * a, "%")
  else if t = 25 then some ((a : ℚ) / 182 + 1.421 * b, "g/s")
  else if t = 26 then some ((b : ℚ) - a, "°C")
  else if t = 27 then some (0.01 * (a : ℚ) * |(b : ℚ) - 128|, "deg")
  else if t = 33 then
    some (if a ≠ 0 then 100 * (b : ℚ) / a else 100 * (b : ℚ), "%")
  else if t = 34 then some (0.01 * (a : ℚ) * ((b : ℚ) - 128), "kW")
  else if t = 35 then some (0.01 * (a : ℚ) * b, "l/h")
  else if t = 43 then some (0.1 * (b : ℚ) + 25.5 * a, "V")
  else if t = 52 then some (0.02 * (a : ℚ) * b - a, "Nm")
  else if t = 56 then some (256 * (a : ℚ) + b, "WSC")
  else if t = 66 then some ((a : ℚ) * b / 511.12, "V")
  else if t = 67 then some (640 * (a : ℚ) + 2.5 * b, "deg")
  else if t = 83 then some (0.01 * (256 * (a : ℚ) + b), "bar")
  else none

/-! ## Worker: sessions, subscriptions and the polling loop (tp2_worker.py) -/

/-- Association-list lookup mirroring a Python dict read (first matching
key; Python keys are unique, so this is the dict value). -/
def alLookup : List (Nat × α) → Nat → Option α
  | [], _ => none
  | (k, v) :: rest, g => if k = g then some v else alLookup rest g

/-- Association-list write mirroring a Python dict assignment: replace the
value of an existing key in place, else append at the end (dicts preserve
insertion order). -/
def alSet : List (Nat × α) → Nat → α → List (Nat × α)
  | [], k, v => [(k, v)]
  | (k0, v0) :: rest, k, v =>
    if k0 = k then (k, v) :: rest else (k0, v0) :: alSet rest k v

/-- Association-list delete mirroring Python del d[k]: drop the entry. -/
def alErase : List (Nat × α) → Nat → List (Nat × α)
  | [], _ => []
  | (k0, v0) :: rest, k =>
    if k0 = k then rest else (k0, v0) :: alErase rest k

/-- Python list.remove(x): delete the first occurrence. -/
def removeFirst : List Nat → Nat → List Nat
  | [], _ => []
  | x :: rest, g => if x = g then rest else x :: removeFirst rest g

/-- The per-module session dict created in _get_or_create_session
(tp2_worker.py lines 82-90): subscription refcounts (dict group -> count),
the ordered group list used for cycling, the round-robin index, the tester
id picked for the session and the connected flag.  The protocol object and
last_activity carry no subscription state. -/
structure Session where
  subs : List (Nat × Nat)
  groups_list : List Nat
  idx : Nat
  tester_id : Nat
  connected : Bool
deriving Repr, DecidableEq

/-- The service state touched by the command surface
(tp2_worker.py lines 60-61): the module -> session dict and the next tester
id to hand out. -/
structure WorkerState where
  sessions : List (Nat × Session)
  next_tester_id : Nat
deriving Repr, DecidableEq

/-- TP2Service._get_or_create_session (tp2_worker.py lines 65-92).  An
existing session is returned unchanged.  Otherwise the code takes the next
tester id, increments the counter, and then evaluates
TP2Protocol(channel, tester_id) - a call that raises TypeError because
TP2Protocol.__init__ has no tester_id parameter (see
tp2ProtocolInitParams / workerProtocolCallKwargs), so creation aborts after
the increment and no session is registered.  The same none outcome also
covers proto.open() failing, which returns None in the source. -/
def getOrCreateSession (st : WorkerState) (m : Nat) :
    Option Session × WorkerState :=
  match alLookup st.sessions m with
  | some s => (some s, st)
  | none => (none, { st with next_tester_id := st.next_tester_id + 1 })

/-- The ADD branch applied to a session that exists
(tp2_worker.py lines 191-198): bump the refcount, or register the group
with count 1 and append it to the cycling list. -/
def addGroup (s : Session) (g : Nat) : Session :=
  match alLookup s.subs g with
  | some c => { s with subs := alSet s.subs g (c + 1) }
  | none => { s with subs := s.subs ++ [(g, 1)], groups_list := s.groups_list ++ [g] }

/-- The REMOVE branch applied to a session that exists
(tp2_worker.py lines 210-228): none when the group is not subscribed
(warning reply, no change); otherwise decrement, and at count 0 delete the
refcount entry, drop the group from the cycling list and reset the index
if it now points past the end. -/
def removeGroup (s : Session) (g : Nat) : Option Session :=
  match alLookup s.subs g with
  | none => none
  | some c =>
    let c1 := c - 1
    if c1 = 0 then
      let subs1 := alErase s.subs g
      if g ∈ s.groups_list then
        let gl1 := removeFirst s.groups_list g
        some { s with subs := subs1, groups_list := gl1,
                      idx := if gl1.length ≤ s.idx then 0 else s.idx }
      else some { s with subs := subs1 }
    else some { s with subs := alSet s.subs g c1 }

/-- The full ADD command (tp2_worker.py lines 182-202): get-or-create the
session, then add the group.  When creation fails the state change is only
the tester-id increment performed before the failing constructor call. -/
def applyAdd (st : WorkerState) (m g : Nat) : WorkerState :=
  match getOrCreateSession st m with
  | (none, st1) => st1
  | (some s, st1) => { st1 with sessions := alSet st1.sessions m (addGroup s g) }

/-- The full REMOVE command (tp2_worker.py lines 204-230): no session or no
subscription leaves the state unchanged (error / warning reply). -/
def applyRemove (st : WorkerState) (m g : Nat) : WorkerState :=
  match alLookup st.sessions m with
  | none => st
  | some s =>
    match removeGroup s g with
    | none => st
    | some s1 => { st with sessions := alSet st.sessions m s1 }

/-- Outcome of proto.send_kvp_request([0x21, grp]) as the polling loop sees
it: a returned byte list, or a raised TP2Error. -/
inductive RBOutcome where
  | ok (resp : List Nat)
  | err
deriving Repr, DecidableEq

/-- What one pass of the polling loop did for one module.  crashed records
an exception other than TP2Error escaping the tick (the IndexError of
resp[1] at tp2_worker.py line 312); the main loop's catch-all handler
(lines 348-356) then closes every session and clears every connected
flag. -/
structure TickResult where
  session : Session
  request : Option (List Nat)
  published : Bool
  crashed : Bool
deriving Repr, DecidableEq

/-- TP2Service._ensure_connected (tp2_worker.py lines 94-124) reduced to its
session-state effect: an already connected session is a no-op; otherwise
the channel-setup / start-session exchange either succeeds (connected set)
or fails, abstracted by connectOk. -/
def ensureConnected (s : Session) (connectOk : Bool) : Bool × Session :=
  if s.connected then (true, s)
  else if connectOk then (true, { s with connected := true })
  else (false, s)

/-- The per-module body of TP2Service.run (tp2_worker.py lines 284-341).
With no subscribed groups only a keep-alive is sent.  Otherwise, after
ensuring the connection, the index is clamped, the group at the index is
read with [0x21, grp].  The test at line 312, resp and resp[0] == 0x61 and
resp[1] == grp, evaluates left to right: a nonempty response opening with
0x61 but shorter than two bytes raises IndexError at resp[1]; that is not
a TP2Error, so it escapes the tick (crashed := true) into the main loop's
catch-all.  Only a positive response 0x61 for the polled group publishes a
sample and advances the index; a negative or otherwise non-matching
response leaves the index alone, and a raised TP2Error is answered by a
keep-alive (send_keep_alive catches its own exceptions and returns False,
so the inner except branch that would clear connected is not reached).
The trailing unconditional keep-alive does not alter session state. -/
def tickModule (s : Session) (connectOk : Bool) (outcome : RBOutcome) :
    TickResult :=
  if s.groups_list = [] then
    { session := s, request := none, published := false, crashed := false }
  else
    match ensureConnected s connectOk with
    | (false, s1) =>
      { session := s1, request := none, published := false, crashed := false }
    | (true, s1) =>
      let s2 := if s1.groups_list.length ≤ s1.idx then { s1 with idx := 0 } else s1
      let grp := s2.groups_list.getD s2.idx 0
      match outcome with
      | .ok resp =>
        if resp ≠ [] ∧ resp.getD 0 0 = 0x61 then
          if resp.length < 2 then
            -- resp[1] raises IndexError out of the tick
            { session := s2, request := some [0x21, grp], published := false,
              crashed := true }
          else if resp.getD 1 0 = grp then
            { session := { s2 with idx := (s2.idx + 1) % s2.groups_list.length },
              request := some [0x21, grp], published := true, crashed := false }
          else
            { session := s2, request := some [0x21, grp], published := false,
              crashed := false }
        else
          { session := s2, request := some [0x21, grp], published := false,
            crashed := false }
      | .err =>
        { session := s2, request := some [0x21, grp], published := false,
          crashed := false }

/-- The session-state invariant the worker maintains: every refcount is at
least 1, the cycling list is exactly the refcount keys in insertion order,
and the index is inside the list (or 0 when the list is empty). -/
def sessionInv (s : Session) : Prop :=
  (∀ p ∈ s.subs, 1 ≤ p.2) ∧
  s.groups_list = s.subs.map Prod.fst ∧
  (s.idx < s.groups_list.length ∨ (s.groups_list = [] ∧ s.idx = 0))

instance (s : Session) : Decidable (sessionInv s) := by
  unfold sessionInv; infer_instance

/-- The service-state invariant: every registered session satisfies
sessionInv. -/
def workerInv (st : WorkerState) : Prop :=
  ∀ p ∈ st.sessions, sessionInv p.2

instance (st : WorkerState) : Decidable (workerInv st) := by
  unfold workerInv; infer_instance

/-- A failed ReadBlock attempt in the sense of claim C3: a raised transport
error, or a negative KWP response (nonempty, first byte 0x7F).  A nonempty
response opening with 0x61 is outside this set - if it lacks the group
byte it raises IndexError out of the tick instead (see tickModule). -/
def readFailed : RBOutcome → Prop
  | .err => True
  | .ok resp => resp ≠ [] ∧ resp.getD 0 0 = 0x7F

instance (o : RBOutcome) : Decidable (readFailed o) := by
  cases o <;> unfold readFailed <;> infer_instance

/-! ## Helper lemmas -/

theorem pyRound2_near (x : ℚ) : |pyRound2 x - x| ≤ 1 / 200 := by
  have h : |x * 100 - round (x * 100)| ≤ 1 / 2 := abs_sub_round (x * 100)
  have e : pyRound2 x - x = -((x * 100 - (round (x * 100) : ℤ)) / 100) := by
    unfold pyRound2; ring
  rw [e, abs_neg, abs_div, abs_of_pos (show (0 : ℚ) < 100 by norm_num)]
  linarith

theorem pyRound2_near_of_eq (x y : ℚ) (h : x = y) : |pyRound2 x - y| ≤ 0.005 := by
  subst h
  have := pyRound2_near x
  have e : (0.005 : ℚ) = 1 / 200 := by norm_num
  rw [e]
  exact this

theorem abs_sub_le_of_eq (x y : ℚ) (h : x = y) : |x - y| ≤ 0.005 := by
  subst h; simp; norm_num

theorem and_f0_of_lt (n : Nat) (h : n < 16) : (16 + n) &&& 240 = 16 := by
  interval_cases n <;> decide

/-! ## Claim C4: the decoder matches the table of spec section 4.4 -/

/-- Claim C4 (confirmed): for every triplet (t, a, b) with a, b in 0..255 and
t a numeric row of the decoding table, decode_value returns a number within
0.005 of the table's formula, with the table's unit; the rounding to two
decimal places never moves a value by more than 0.005.  Type 36 yields the
raw string of a and b with unit km, and a type absent from the table yields
the hex string fallback with unit Type_t.  decodeValue is a total function,
so the decoder never raises on any input. -/
theorem c4_decoder_matches_table (t a b : Nat) (ha : a ≤ 255) (hb : b ≤ 255) :
    (∀ q u, specFormula t a b = some (q, u) →
      ∃ v, decodeValue t a b = (PyVal.num v, u) ∧ |v - q| ≤ 0.005) ∧
    (t = 36 →
      decodeValue t a b = (PyVal.str (Nat.repr a ++ " " ++ Nat.repr b), "km")) ∧
    (specFormula t a b = none → t ≠ 36 →
      decodeValue t a b = (PyVal.str (hexLit a b), "Type_" ++ Nat.repr t)) := by
  refine ⟨?_, ?_, ?_⟩
  · intro q u h
    unfold specFormula at h
    by_cases t1 : t = 1
    · subst t1; rw [if_pos rfl] at h
      simp only [Option.some.injEq, Prod.mk.injEq] at h
      obtain ⟨rfl, rfl⟩ := h
      exact ⟨_, rfl, pyRound2_near_of_eq _ _ (by ring)⟩
    rw [if_neg t1] at h
    by_cases t2 : t = 2
    · subst t2; rw [if_pos rfl] at h
      simp only [Option.some.injEq, Prod.mk.injEq] at h
      obtain ⟨rfl, rfl⟩ := h
      exact ⟨_, rfl, pyRound2_near_of_eq _ _ (by ring)⟩
    rw [if_neg t2] at h
    by_cases t3 : t = 3
    · subst t3; rw [if_pos rfl] at h
      simp only [Option.some.injEq, Prod.mk.injEq] at h
      obtain ⟨rfl, rfl⟩ := h
      exact ⟨_, rfl, pyRound2_near_of_eq _ _ (by ring)⟩
    rw [if_neg t3] at h
    by_cases t5 : t = 5
    · subst t5; rw [if_pos rfl] at h
      simp only [Option.some.injEq, Prod.mk.injEq] at h
      obtain ⟨rfl, rfl⟩ := h
      exact ⟨_, rfl, pyRound2_near_of_eq _ _ (by ring)⟩
    rw [if_neg t5] at h
    by_cases t6 : t = 6
    · subst t6; rw [if_pos rfl] at h
      simp only [Option.some.injEq, Prod.mk.injEq] at h
      obtain ⟨rfl, rfl⟩ := h
      exact ⟨_, rfl, pyRound2_near_of_eq _ _ (by ring)⟩
    rw [if_neg t6] at h
    by_cases t7 : t = 7
    · subst t7; rw [if_pos rfl] at h
      simp only [Option.some.injEq, Prod.mk.injEq] at h
      obtain ⟨rfl, rfl⟩ := h
      exact ⟨_, rfl, pyRound2_near_of_eq _ _ (by ring)⟩
    rw [if_neg t7] at h
    by_cases t9 : t = 9
    · subst t9; rw [if_pos rfl] at h
      simp only [Option.some.injEq, Prod.mk.injEq] at h
      obtain ⟨rfl, rfl⟩ := h
      exact ⟨_, rfl, pyRound2_near_of_eq _ _ (by ring)⟩
    rw [if_neg t9] at h
    by_cases t15 : t = 15
    · subst t15; rw [if_pos rfl] at h
      simp only [Option.some.injEq, Prod.mk.injEq] at h
      obtain ⟨rfl, rfl⟩ := h
      exact ⟨_, rfl, pyRound2_near_of_eq _ _ (by ring)⟩
    rw [if_neg t15] at h
    by_cases t18 : t = 18
    · subst t18; rw [if_pos rfl] at h
      simp only [Option.some.injEq, Prod.mk.injEq] at h
      obtain ⟨rfl, rfl⟩ := h
      exact ⟨_, rfl, pyRound2_near_of_eq _ _ (by ring)⟩
    rw [if_neg t18] at h
    by_cases t19 : t = 19
    · subst t19; rw [if_pos rfl] at h
      simp only [Option.some.injEq, Prod.mk.injEq] at h
      obtain ⟨rfl, rfl⟩ := h
      exact ⟨_, rfl, pyRound2_near_of_eq _ _ (by ring)⟩
    rw [if_neg t19] at h
    by_cases t20 : t = 20
    · subst t20; rw [if_pos rfl] at h
      simp only [Option.some.injEq, Prod.mk.injEq] at h
      obtain ⟨rfl, rfl⟩ := h
      exact ⟨_, rfl, pyRound2_near_of_eq _ _ (by ring)⟩
    rw [if_neg t20] at h
    by_cases t21 : t = 21
    · subst t21; rw [if_pos rfl] at h
      simp only [Option.some.injEq, Prod.mk.injEq] at h
      obtain ⟨rfl, rfl⟩ := h
      exact ⟨_, rfl, pyRound2_near_of_eq _ _ (by ring)⟩
    rw [if_neg t21] at h
    by_cases t23 : t = 23
    · subst t23; rw [if_pos rfl] at h
      simp only [Option.some.injEq, Prod.mk.injEq] at h
      obtain ⟨rfl, rfl⟩ := h
      exact ⟨_, rfl, pyRound2_near_of_eq _ _ (by ring)⟩
    rw [if_neg t23] at h
    by_cases t25 : t = 25
    · subst t25; rw [if_pos rfl] at h
      simp only [Option.some.injEq, Prod.mk.injEq] at h
      obtain ⟨rfl, rfl⟩ := h
      exact ⟨_, rfl, pyRound2_near_of_eq _ _ (by ring)⟩
    rw [if_neg t25] at h
    by_cases t26 : t = 26
    · subst t26; rw [if_pos rfl] at h
      simp only [Option.some.injEq, Prod.mk.injEq] at h
      obtain ⟨rfl, rfl⟩ := h
      exact ⟨_, rfl, abs_sub_le_of_eq _ _ (by push_cast; ring)⟩
    rw [if_neg t26] at h
    by_cases t27 : t = 27
    · subst t27; rw [if_pos rfl] at h
      simp only [Option.some.injEq, Prod.mk.injEq] at h
      obtain ⟨rfl, rfl⟩ := h
      exact ⟨_, rfl, pyRound2_near_of_eq _ _ (by ring)⟩
    rw [if_neg t27] at h
    by_cases t33 : t = 33
    · subst t33; rw [if_pos rfl] at h
      simp only [Option.some.injEq, Prod.mk.injEq] at h
      obtain ⟨rfl, rfl⟩ := h
      by_cases ha0 : a = 0
      · subst ha0
        rw [if_neg (show ¬((0 : Nat) ≠ 0) by simp)]
        exact ⟨_, rfl, abs_sub_le_of_eq _ _ (by push_cast; ring)⟩
      · rw [if_pos ha0]
        refine ⟨pyRound2 (100 * (b : ℚ) / a), ?_, pyRound2_near_of_eq _ _ rfl⟩
        simp [decodeValue, ha0]
    rw [if_neg t33] at h
    by_cases t34 : t = 34
    · subst t34; rw [if_pos rfl] at h
      simp only [Option.some.injEq, Prod.mk.injEq] at h
      obtain ⟨rfl, rfl⟩ := h
      exact ⟨_, rfl, pyRound2_near_of_eq _ _ (by ring)⟩
    rw [if_neg t34] at h
    by_cases t35 : t = 35
    · subst t35; rw [if_pos rfl] at h
      simp only [Option.some.injEq, Prod.mk.injEq] at h
      obtain ⟨rfl, rfl⟩ := h
      exact ⟨_, rfl, pyRound2_near_of_eq _ _ (by ring)⟩
    rw [if_neg t35] at h
    by_cases t43 : t = 43
    · subst t43; rw [if_pos rfl] at h
      simp only [Option.some.injEq, Prod.mk.injEq] at h
      obtain ⟨rfl, rfl⟩ := h
      exact ⟨_, rfl, pyRound2_near_of_eq _ _ (by ring)⟩
    rw [if_neg t43] at h
    by_cases t52 : t = 52
    · subst t52; rw [if_pos rfl] at h
      simp only [Option.some.injEq, Prod.mk.injEq] at h
      obtain ⟨rfl, rfl⟩ := h
      exact ⟨_, rfl, pyRound2_near_of_eq _ _ (by ring)⟩
    rw [if_neg t52] at h
    by_cases t56 : t = 56
    · subst t56; rw [if_pos rfl] at h
      simp only [Option.some.injEq, Prod.mk.injEq] at h
      obtain ⟨rfl, rfl⟩ := h
      exact ⟨_, rfl, abs_sub_le_of_eq _ _ (by push_cast; ring)⟩
    rw [if_neg t56] at h
    by_cases t66 : t = 66
    · subst t66; rw [if_pos rfl] at h
      simp only [Option.some.injEq, Prod.mk.injEq] at h
      obtain ⟨rfl, rfl⟩ := h
      exact ⟨_, rfl, pyRound2_near_of_eq _ _ (by ring)⟩
    rw [if_neg t66] at h
    by_cases t67 : t = 67
    · subst t67; rw [if_pos rfl] at h
      simp only [Option.some.injEq, Prod.mk.injEq] at h
      obtain ⟨rfl, rfl⟩ := h
      exact ⟨_, rfl, pyRound2_near_of_eq _ _ (by ring)⟩
    rw [if_neg t67] at h
    by_cases t83 : t = 83
    · subst t83; rw [if_pos rfl] at h
      simp only [Option.some.injEq, Prod.mk.injEq] at h
      obtain ⟨rfl, rfl⟩ := h
      exact ⟨_, rfl, pyRound2_near_of_eq _ _ (by push_cast; ring)⟩
    rw [if_neg t83] at h
    exact Option.noConfusion h
  · intro h36
    subst h36
    rfl
  · intro h h36
    unfold specFormula at h
    by_cases t1 : t = 1
    · rw [if_pos t1] at h; exact Option.noConfusion h
    rw [if_neg t1] at h
    by_cases t2 : t = 2
    · rw [if_pos t2] at h; exact Option.noConfusion h
    rw [if_neg t2] at h
    by_cases t3 : t = 3
    · rw [if_pos t3] at h; exact Option.noConfusion h
    rw [if_neg t3] at h
    by_cases t5 : t = 5
    · rw [if_pos t5] at h; exact Option.noConfusion h
    rw [if_neg t5] at h
    by_cases t6 : t = 6
    · rw [if_pos t6] at h; exact Option.noConfusion h
    rw [if_neg t6] at h
    by_cases t7 : t = 7
    · rw [if_pos t7] at h; exact Option.noConfusion h
    rw [if_neg t7] at h
    by_cases t9 : t = 9
    · rw [if_pos t9] at h; exact Option.noConfusion h
    rw [if_neg t9] at h
    by_cases t15 : t = 15
    · rw [if_pos t15] at h; exact Option.noConfusion h
    rw [if_neg t15] at h
    by_cases t18 : t = 18
    · rw [if_pos t18] at h; exact Option.noConfusion h
    rw [if_neg t18] at h
    by_cases t19 : t = 19
    · rw [if_pos t19] at h; exact Option.noConfusion h
    rw [if_neg t19] at h
    by_cases t20 : t = 20
    · rw [if_pos t20] at h; exact Option.noConfusion h
    rw [if_neg t20] at h
    by_cases t21 : t = 21
    · rw [if_pos t21] at h; exact Option.noConfusion h
    rw [if_neg t21] at h
    by_cases t23 : t = 23
    · rw [if_pos t23] at h; exact Option.noConfusion h
    rw [if_neg t23] at h
    by_cases t25 : t = 25
    · rw [if_pos t25] at h; exact Option.noConfusion h
    rw [if_neg t25] at h
    by_cases t26 : t = 26
    · rw [if_pos t26] at h; exact Option.noConfusion h
    rw [if_neg t26] at h
    by_cases t27 : t = 27
    · rw [if_pos t27] at h; exact Option.noConfusion h
    rw [if_neg t27] at h
    by_cases t33 : t = 33
    · rw [if_pos t33] at h; exact Option.noConfusion h
    rw [if_neg t33] at h
    by_cases t34 : t = 34
    · rw [if_pos t34] at h; exact Option.noConfusion h
    rw [if_neg t34] at h
    by_cases t35 : t = 35
    · rw [if_pos t35] at h; exact Option.noConfusion h
    rw [if_neg t35] at h
    by_cases t43 : t = 43
    · rw [if_pos t43] at h; exact Option.noConfusion h
    rw [if_neg t43] at h
    by_cases t52 : t = 52
    · rw [if_pos t52] at h; exact Option.noConfusion h
    rw [if_neg t52] at h
    by_cases t56 : t = 56
    · rw [if_pos t56] at h; exact Option.noConfusion h
    rw [if_neg t56] at h
    by_cases t66 : t = 66
    · rw [if_pos t66] at h; exact Option.noConfusion h
    rw [if_neg t66] at h
    by_cases t67 : t = 67
    · rw [if_pos t67] at h; exact Option.noConfusion h
    rw [if_neg t67] at h
    by_cases t83 : t = 83
    · rw [if_pos t83] at h; exact Option.noConfusion h
    rw [if_neg t83] at h
    unfold decodeValue
    rw [if_neg t1, if_neg (by tauto), if_neg (by tauto), if_neg t5,
        if_neg (by tauto), if_neg t7, if_neg t15, if_neg t18, if_neg t19,
        if_neg t25, if_neg t26, if_neg t35, if_neg h36, if_neg t52,
        if_neg t56, if_neg t83]

/-- Witness for c4_decoder_matches_table: at (t, a, b) = (1, 10, 25) the
decoder returns a number within 0.005 of 10 times 25 over 5 with unit rpm. -/
theorem c4_decoder_matches_table_witness :
    ∃ v, decodeValue 1 10 25 = (PyVal.num v, "rpm") ∧
      |v - ((10 : ℚ) * 25) / 5| ≤ 0.005 :=
  (c4_decoder_matches_table 1 10 25 (by norm_num) (by norm_num)).1
    (((10 : ℚ) * (25 : Nat)) / 5) "rpm" rfl

/-! ## Claim C1: channel setup -/

/-- Claim C1 is false as stated: connect does not accept every 0x201 frame
whose byte 1 is 0xD0 - it also requires byte 0 to equal 0x00
(tp2_protocol.py line 112).  Injecting the claim's frame, whose byte 0 is
0x01, makes connect return False and leaves the channel unconnected, even
with a well-formed parameter ack following. -/
theorem c1_channel_setup_counterexample :
    (connect tp2Init 0x01
        (some [0x01, 0xD0, 0x00, 0x03, 0x40, 0x07, 0x00]) (some [0xA1])).1
      = false ∧
    ((connect tp2Init 0x01
        (some [0x01, 0xD0, 0x00, 0x03, 0x40, 0x07, 0x00]) (some [0xA1])).2).connected
      = false := by
  exact ⟨rfl, rfl⟩

/-- Claim C1 (corrected): channel setup accepts a 0x201 frame only when
byte 0 equals 0x00 and byte 1 equals 0xD0.  With the setup reply
[0x00, 0xD0, 0x00, 0x03, 0x40, 0x07, 0x00] connect resolves the tx id to
0x0740 (bytes 5 and 4), sets the rx id to the channel's tester id (0x300,
the only value the constructor produces), and after any parameter ack
whose byte 0 is 0xA1 reaches the connected state with both sequence
counters reset to 0. -/
theorem c1_channel_setup_amended (target : Nat) (rest : List Nat) :
    connect tp2Init target
        (some [0x00, 0xD0, 0x00, 0x03, 0x40, 0x07, 0x00]) (some (0xA1 :: rest)) =
      (true, { tester_id := 0x300, tx_id := 0x0740, rx_id := 0x300,
               seq_tx := 0, seq_rx := 0, connected := true }) := rfl

/-! ## Claim C5: per-session tester ids -/

/-- Claim C5 is a code bug: the worker hands out tester ids 0x300, 0x301,
... and passes tester_id to the TP2Protocol constructor
(tp2_worker.py lines 70-75), but TP2Protocol.__init__ accepts only the
channel parameter (tp2_protocol.py line 28) and always sets tester_id to
0x300, so the constructor call raises TypeError: no protocol instance and
no session are ever created, and even the first channel would not get its
id from the worker.  This theorem records the mismatch: the worker's call
uses a keyword the constructor does not accept, every constructed channel
has tester id 0x300, an ADD for a fresh module creates no session, and
only the tester-id counter moves. -/
theorem c5_tester_id_bug :
    "tester_id" ∈ workerProtocolCallKwargs ∧
    "tester_id" ∉ tp2ProtocolInitParams ∧
    tp2Init.tester_id = 0x300 ∧
    (getOrCreateSession { sessions := [], next_tester_id := 0x300 } 1).1 = none ∧
    (applyAdd { sessions := [], next_tester_id := 0x300 } 1 1).sessions = [] ∧
    (applyAdd { sessions := [], next_tester_id := 0x300 } 1 1).next_tester_id = 0x301 := by
  refine ⟨by decide, by decide, rfl, rfl, rfl, rfl⟩

/-! ## Claim C6: keep-alive -/

/-- Claim C6 is false as stated: when the keep-alive gets no reply within
T1, send_keep_alive just returns False (tp2_protocol.py lines 407-409)
without touching the connected flag, so the channel is NOT marked
disconnected - here a connected channel stays connected after a keep-alive
timeout. -/
theorem c6_keepalive_counterexample :
    (sendKeepAlive { tester_id := 0x300, tx_id := 0x0740, rx_id := 0x300,
                     seq_tx := 0, seq_rx := 0, connected := true } none).1 = false ∧
    ((sendKeepAlive { tester_id := 0x300, tx_id := 0x0740, rx_id := 0x300,
                      seq_tx := 0, seq_rx := 0, connected := true } none).2).connected = true := by
  exact ⟨rfl, rfl⟩

/-- Claim C6 (corrected): on a channel with a tx id, a keep-alive with no
reply returns False and leaves the channel state - in particular the
connected flag - unchanged; replies whose byte 0 is 0xA1 or 0x93 return
True with the state unchanged; a reply whose byte 0 is 0xA8 tears the
channel down (connected := false) and returns False. -/
theorem c6_keepalive_amended (ch : Channel) (r : Frame) (htx : ch.tx_id ≠ 0) :
    sendKeepAlive ch none = (false, ch) ∧
    (r.getD 0 0 = 0xA1 ∨ r.getD 0 0 = 0x93 →
      sendKeepAlive ch (some r) = (true, ch)) ∧
    (r.getD 0 0 = 0xA8 →
      sendKeepAlive ch (some r) = (false, { ch with connected := false })) := by
  refine ⟨?_, ?_, ?_⟩
  · simp [sendKeepAlive, htx]
  · intro hA
    rcases hA with h0 | h0 <;> simp at h0 <;> simp [sendKeepAlive, htx, h0]
  · intro h0
    simp at h0
    simp [sendKeepAlive, htx, h0]

/-- Witness for c6_keepalive_amended on a concrete connected channel and
the reply [0xA1]. -/
theorem c6_keepalive_amended_witness :
    sendKeepAlive { tester_id := 0x300, tx_id := 0x0740, rx_id := 0x300,
                    seq_tx := 0, seq_rx := 0, connected := true } (some [0xA1]) =
      (true, { tester_id := 0x300, tx_id := 0x0740, rx_id := 0x300,
               seq_tx := 0, seq_rx := 0, connected := true }) :=
  (c6_keepalive_amended _ [0xA1] (by decide)).2.1 (Or.inl rfl)

/-! ## Claims C2 and C7: reassembly of KWP responses -/

/-- Reassembly when the whole response arrives in one data frame with high
nibble 0x1 carrying the declared length in bytes 1 and 2: exactly the
declared number of bytes is returned, truncating trailing padding. -/
theorem readMF_single_first_frame (n hi lo : Nat) (data : List Nat)
    (rest : List Frame) (hn : n < 16) (hne : data ≠ [])
    (hlen : (hi <<< 8) + lo ≤ data.length) :
    readMF (((0x10 + n) :: hi :: lo :: data) :: rest) [] 0 =
      .ok (data.take ((hi <<< 8) + lo)) := by
  have hb : (16 + n) &&& 240 = 16 := and_f0_of_lt n hn
  have hBB : ¬((16 + n) &&& 240 = 176) := by rw [hb]; norm_num
  have hA3 : ¬(16 + n = 163) := by omega
  have hA8 : ¬(16 + n = 168) := by omega
  have hpos : 0 < data.length := List.length_pos.mpr hne
  have hnl : ¬(((0x10 + n) :: hi :: lo :: data).length < 4) := by
    simp only [List.length_cons]
    omega
  unfold readMF
  simp only [List.getD_cons_zero, List.getD_cons_succ, if_neg hBB, if_neg hA3,
    if_neg hA8, if_pos hb, if_neg hnl, List.drop_succ_cons, List.drop_zero,
    List.length_nil, List.nil_append, if_pos rfl, ite_true]
  by_cases hgt : ((data.length : Int) > ((hi <<< 8) + lo : Nat) - (0 : Nat))
  · rw [if_pos hgt]
    have he : pySlice ((((hi <<< 8) + lo : Nat) : Int) - ((0 : Nat) : Int)) data =
        data.take ((hi <<< 8) + lo) := by
      unfold pySlice
      rw [if_pos (by omega)]
      rfl
    rw [he, if_pos (by rw [List.length_take]; omega)]
  · rw [if_neg hgt]
    rw [if_pos (by omega)]
    rw [List.take_of_length_le (by omega)]

/-- Claim C2 is false as stated: when the first data-bearing frame of a
response has high nibble 0x2, the code does not read the 16-bit length
from its bytes 1 and 2 - it appends every byte from byte 1 on (including
the length field) to the buffer, and the length check only ever uses a
later 0x1N frame.  Here the first data frame declares length 8 in bytes
1 and 2, yet the returned list has 7 bytes. -/
theorem c2_reassembly_counterexample :
    readMF [[0x21, 0x00, 0x08, 1, 2, 3, 4, 5], [0x11, 0x00, 0x01, 9]] [] 0 =
      .ok [0x00, 0x08, 1, 2, 3, 4, 5] ∧
    ([0x00, 0x08, 1, 2, 3, 4, 5] : List Nat).length ≠ (0x00 <<< 8) + 0x08 := by
  exact ⟨rfl, by decide⟩

/-- Claim C2 (corrected): the 16-bit declared length is only ever read from
a frame with high nibble 0x1 (bytes 1 and 2, data from byte 3); a frame
with high nibble 0x2 contributes all of its bytes from byte 1 as data.
When the first data-bearing frame has high nibble 0x1 and carries at least
the declared number of bytes, the reassembled result is exactly the
declared length (hi shifted left 8, plus lo), truncating any trailing
padding.  When the first data-bearing frame has high nibble 0x2 the
guarantee fails (see the counterexample). -/
theorem c2_reassembly_amended (n hi lo : Nat) (data : List Nat)
    (rest : List Frame) (hn : n < 16) (hne : data ≠ [])
    (hlen : (hi <<< 8) + lo ≤ data.length) :
    ∃ out, readMF (((0x10 + n) :: hi :: lo :: data) :: rest) [] 0 = .ok out ∧
      out = data.take ((hi <<< 8) + lo) ∧ out.length = (hi <<< 8) + lo :=
  ⟨data.take ((hi <<< 8) + lo),
    readMF_single_first_frame n hi lo data rest hn hne hlen,
    rfl, by simp [List.length_take]; omega⟩

/-- Witness for c2_reassembly_amended: frame 0x11, declared length 3,
four data bytes, returns exactly the first three. -/
theorem c2_reassembly_amended_witness :
    ∃ out, readMF [[0x11, 0x00, 0x03, 0xAA, 0xBB, 0xCC, 0x00]] [] 0 = .ok out ∧
      out = ([0xAA, 0xBB, 0xCC, 0x00] : List Nat).take ((0x00 <<< 8) + 0x03) ∧
      out.length = (0x00 <<< 8) + 0x03 :=
  c2_reassembly_amended 1 0x00 0x03 [0xAA, 0xBB, 0xCC, 0x00] []
    (by norm_num) (by decide) (by decide)

/-- Claim C7 is false as stated: a first data frame declaring a 16-bit
length of zero makes send_kvp_request return an empty byte list as a
successful response (the loop exits immediately with the empty buffer),
not an error. -/
theorem c7_zero_length_counterexample :
    sendKvpRequest { tester_id := 0x300, tx_id := 0x0740, rx_id := 0x300,
                     seq_tx := 0, seq_rx := 0, connected := true }
        [0x21, 0x01] [[0xB1], [0x10, 0x00, 0x00, 0x00]] =
      (.ok [], { tester_id := 0x300, tx_id := 0x0740, rx_id := 0x300,
                 seq_tx := 1, seq_rx := 0, connected := true }) := rfl

/-- Claim C7 (corrected): on a connected channel, a correctly ACKed request
whose response's first data frame has high nibble 0x1 and declares length
zero yields the successful empty response .ok [] (which callers observe as
a falsy value), with only the tx sequence counter advanced; no error is
raised. -/
theorem c7_zero_length_amended (ch : Channel) (payload : List Nat) (n : Nat)
    (pad : List Nat) (rest : List Frame)
    (hc : ch.connected = true) (hn : n < 16) (hpad : pad ≠ []) :
    sendKvpRequest ch payload
        ([0xB0 + (ch.seq_tx + 1) % 16] :: ((0x10 + n) :: 0x00 :: 0x00 :: pad) :: rest) =
      (.ok [], { ch with seq_tx := (ch.seq_tx + 1) % 16 }) := by
  have hb : (16 + n) &&& 240 = 16 := and_f0_of_lt n hn
  have hBB : ¬((16 + n) &&& 240 = 176) := by rw [hb]; norm_num
  have hA3 : ¬(16 + n = 163) := by omega
  have hA8 : ¬(16 + n = 168) := by omega
  have hpos : 0 < pad.length := List.length_pos.mpr hpad
  have hnl : ¬(((0x10 + n) :: (0x00 : Nat) :: 0x00 :: pad).length < 4) := by
    simp only [List.length_cons]
    omega
  have hack : waitAck ((((ch.seq_tx + 1) % 16 : Nat) : Int) - 1)
      (some [0xB0 + (ch.seq_tx + 1) % 16]) = true := by
    unfold waitAck
    simp only [List.getD_cons_zero, decide_eq_true_eq]
    have hlt : (ch.seq_tx + 1) % 16 < 16 := Nat.mod_lt _ (by norm_num)
    push_cast
    omega
  unfold sendKvpRequest
  rw [hc]
  simp only [Bool.true_eq_false, if_false, List.head?_cons, List.drop_one,
    List.tail_cons]
  rw [hack]
  simp only [Bool.true_eq_false, if_false]
  have hmf : readMF (((0x10 + n) :: 0x00 :: 0x00 :: pad) :: rest) [] 0 = .ok [] := by
    unfold readMF
    simp only [List.getD_cons_zero, List.getD_cons_succ, if_neg hBB, if_neg hA3,
      if_neg hA8, if_pos hb, if_neg hnl, List.drop_succ_cons, List.drop_zero,
      List.length_nil, List.nil_append, if_pos rfl, ite_true]
    norm_num
    rw [if_pos hpos]
    simp [pySlice]
  rw [hmf]

/-- Witness for c7_zero_length_amended on a concrete connected channel. -/
theorem c7_zero_length_amended_witness :
    sendKvpRequest { tester_id := 0x300, tx_id := 0x0740, rx_id := 0x300,
                     seq_tx := 3, seq_rx := 0, connected := true }
        [0x21, 0x02] [[0xB4], [0x11, 0x00, 0x00, 0x55]] =
      (.ok [], { tester_id := 0x300, tx_id := 0x0740, rx_id := 0x300,
                 seq_tx := 4, seq_rx := 0, connected := true }) :=
  c7_zero_length_amended _ [0x21, 0x02] 1 [0x55] [] rfl (by norm_num) (by decide)

/-! ## Claim C3: failure cooldown in the polling loop -/

/-- Claim C3 is false as stated: tp2_worker.py keeps no per-group error
counter and no cooldown-until timestamp (the session dict has neither
field), so after three consecutive failed ReadBlock attempts on a group
nothing is set to now plus 30 s, and the very next tick issues
[0x21, group] to the same group again - here three ticks in a row fail
with the negative response [0x7F, 0x21, 0x10] on group 1 and the fourth
tick still requests group 1, with the session state identical throughout
(the cursor is not even advanced to the other subscribed group 2). -/
theorem c3_cooldown_counterexample :
    (let s0 : Session := { subs := [(1, 1), (2, 1)], groups_list := [1, 2],
                           idx := 0, tester_id := 0x300, connected := true }
     let t1 := tickModule s0 true (.ok [0x7F, 0x21, 0x10])
     let t2 := tickModule t1.session true (.ok [0x7F, 0x21, 0x10])
     let t3 := tickModule t2.session true (.ok [0x7F, 0x21, 0x10])
     let t4 := tickModule t3.session true (.ok [0x7F, 0x21, 0x10])
     t1.request = some [0x21, 1] ∧ t2.request = some [0x21, 1] ∧
     t3.request = some [0x21, 1] ∧ t4.request = some [0x21, 1] ∧
     t3.session = s0) := by
  decide

/-- Claim C3 (corrected): failures impose no cooldown.  On a connected
session whose cursor is in range, a failed ReadBlock attempt in the
claim's sense - a raised transport error or a negative KWP response
0x7F - leaves the session state completely unchanged (no cooldown-until,
no error counter, cursor in place), does not crash the tick, and the tick
still issued [0x21, group]; hence the same group is polled again on every
subsequent tick rather than being suspended for 30 seconds.  (A response
[0x61] without the group byte is not in this set: it raises IndexError
out of the tick and the main loop's catch-all disconnects every session;
see tickModule.) -/
theorem c3_cooldown_amended (s : Session) (co : Bool) (o : RBOutcome)
    (hc : s.connected = true) (hidx : s.idx < s.groups_list.length)
    (hfail : readFailed o) :
    tickModule s co o =
      { session := s, request := some [0x21, s.groups_list.getD s.idx 0],
        published := false, crashed := false } := by
  have hne : s.groups_list ≠ [] := by
    intro h
    rw [h] at hidx
    simp at hidx
  have hle : ¬(s.groups_list.length ≤ s.idx) := not_le.mpr hidx
  cases o with
  | err =>
      simp [tickModule, ensureConnected, hc, hne, hle]
  | ok resp =>
      obtain ⟨hner, h7f⟩ := hfail
      have hcond : ¬(resp ≠ [] ∧ resp.getD 0 0 = 0x61) := by
        intro hco
        rw [h7f] at hco
        exact absurd hco.2 (by norm_num)
      simp at hcond
      simp [tickModule, ensureConnected, hc, hne, hle]
      tauto

/-- Witness for c3_cooldown_amended: on a concrete connected two-group
session a transport error leaves the session untouched, crashes nothing,
and the tick polled group 1. -/
theorem c3_cooldown_amended_witness :
    tickModule { subs := [(1, 1), (2, 1)], groups_list := [1, 2], idx := 0,
                 tester_id := 0x300, connected := true } true RBOutcome.err =
      { session := { subs := [(1, 1), (2, 1)], groups_list := [1, 2], idx := 0,
                     tester_id := 0x300, connected := true },
        request := some [0x21, 1], published := false, crashed := false } :=
  c3_cooldown_amended _ true RBOutcome.err rfl (by decide) (by decide)

/-! ## Claim C8: scenario B, single-frame read and decode -/

/-- Decoding the triplet bytes carried by scenario B's data frame after the
0x61, 0x01 header, with the code's table. -/
theorem scenarioB_decode :
    decodeBlock [0x05, 0x64, 0xB4, 0x01, 0x4B, 0x32, 0x02, 0x50, 0x32] =
      [(PyVal.num 800, "°C", 5), (PyVal.num 750, "rpm", 1),
       (PyVal.num 8, "%", 2)] := by
  norm_num [decodeBlock, decodeValue, pyRound2, round_eq]

/-- Claim C8 is false as stated: scenario B's data frame declares the
16-bit length 0x0E = 14 but carries only 11 bytes after byte 3, so the
reassembler keeps waiting and the request times out - the decoder is never
reached.  Moreover, decoding the 9 trailing triplet bytes of the carried
body with the code's table gives 800.0 degC (type 5), 750.0 rpm (type 1)
and 8.0 percent (type 2) - three values, not the four listed in the
claim. -/
theorem c8_scenario_b_counterexample :
    (sendKvpRequest { tester_id := 0x300, tx_id := 0x0740, rx_id := 0x300,
                      seq_tx := 0, seq_rx := 0, connected := true }
        [0x21, 0x01]
        [[0xB1], [0x10, 0x00, 0x0E, 0x61, 0x01, 0x05, 0x64, 0xB4, 0x01,
                  0x4B, 0x32, 0x02, 0x50, 0x32]]).1 = .error .timeout ∧
    decodeBlock [0x05, 0x64, 0xB4, 0x01, 0x4B, 0x32, 0x02, 0x50, 0x32] ≠
      [(PyVal.num 26, "°C", 5), (PyVal.num 15, "rpm", 1),
       (PyVal.num 50, "%", 2), (PyVal.num 8, "%", 2)] := by
  refine ⟨rfl, ?_⟩
  rw [scenarioB_decode]
  decide

/-- Claim C8 (corrected): with scenario B's frames the request fails with a
timeout (declared length 14, only 11 data bytes in the frame), so no
decode happens; and on the triplet bytes the frame actually carries after
the 0x61, 0x01 header, the decoder yields exactly 800.0 degC (type 5),
750.0 rpm (type 1) and 8.0 percent (type 2). -/
theorem c8_scenario_b_amended :
    (sendKvpRequest { tester_id := 0x300, tx_id := 0x0740, rx_id := 0x300,
                      seq_tx := 0, seq_rx := 0, connected := true }
        [0x21, 0x01]
        [[0xB1], [0x10, 0x00, 0x0E, 0x61, 0x01, 0x05, 0x64, 0xB4, 0x01,
                  0x4B, 0x32, 0x02, 0x50, 0x32]]).1 = .error .timeout ∧
    decodeBlock [0x05, 0x64, 0xB4, 0x01, 0x4B, 0x32, 0x02, 0x50, 0x32] =
      [(PyVal.num 800, "°C", 5), (PyVal.num 750, "rpm", 1),
       (PyVal.num 8, "%", 2)] :=
  ⟨rfl, scenarioB_decode⟩

/-! ## Claim C9: ADD then REMOVE restores the subscription state -/

theorem alLookup_alSet (l : List (Nat × α)) (k : Nat) (v : α) :
    alLookup (alSet l k v) k = some v := by
  induction l with
  | nil => simp [alSet, alLookup]
  | cons p rest ih =>
      obtain ⟨k0, v0⟩ := p
      by_cases h : k0 = k
      · subst h
        simp [alSet, alLookup]
      · simp [alSet, alLookup, h, ih]

theorem alSet_of_lookup (l : List (Nat × α)) (k : Nat) (v : α)
    (h : alLookup l k = some v) : alSet l k v = l := by
  induction l with
  | nil => simp [alLookup] at h
  | cons p rest ih =>
      obtain ⟨k0, v0⟩ := p
      by_cases hk : k0 = k
      · subst hk
        simp [alLookup] at h
        simp [alSet, h]
      · simp [alLookup, hk] at h
        simp [alSet, hk, ih h]

theorem alSet_alSet (l : List (Nat × α)) (k : Nat) (v w : α) :
    alSet (alSet l k v) k w = alSet l k w := by
  induction l with
  | nil => simp [alSet]
  | cons p rest ih =>
      obtain ⟨k0, v0⟩ := p
      by_cases h : k0 = k
      · subst h
        simp [alSet]
      · simp [alSet, h, ih]

theorem alLookup_none_not_mem (l : List (Nat × α)) (k : Nat)
    (h : alLookup l k = none) : k ∉ l.map Prod.fst := by
  induction l with
  | nil => simp
  | cons p rest ih =>
      obtain ⟨k0, v0⟩ := p
      by_cases hk : k0 = k
      · subst hk
        simp [alLookup] at h
      · simp [alLookup, hk] at h
        simp [ih h]
        omega

theorem alLookup_mem (l : List (Nat × α)) (k : Nat) (v : α)
    (h : alLookup l k = some v) : (k, v) ∈ l := by
  induction l with
  | nil => simp [alLookup] at h
  | cons p rest ih =>
      obtain ⟨k0, v0⟩ := p
      by_cases hk : k0 = k
      · subst hk
        simp [alLookup] at h
        simp [h]
      · simp [alLookup, hk] at h
        simp [ih h]

theorem alLookup_append_single (l : List (Nat × α)) (k : Nat) (v : α)
    (h : alLookup l k = none) : alLookup (l ++ [(k, v)]) k = some v := by
  induction l with
  | nil => simp [alLookup]
  | cons p rest ih =>
      obtain ⟨k0, v0⟩ := p
      by_cases hk : k0 = k
      · subst hk
        simp [alLookup] at h
      · simp [alLookup, hk] at h ⊢
        exact ih h

theorem alErase_append_single (l : List (Nat × α)) (k : Nat) (v : α)
    (h : alLookup l k = none) : alErase (l ++ [(k, v)]) k = l := by
  induction l with
  | nil => simp [alErase]
  | cons p rest ih =>
      obtain ⟨k0, v0⟩ := p
      by_cases hk : k0 = k
      · subst hk
        simp [alLookup] at h
      · simp [alLookup, hk] at h
        simp [alErase, hk, ih h]

theorem removeFirst_append_single (l : List Nat) (g : Nat) (h : g ∉ l) :
    removeFirst (l ++ [g]) g = l := by
  induction l with
  | nil => simp [removeFirst]
  | cons x rest ih =>
      simp at h
      simp [removeFirst, Ne.symm h.1, ih h.2]

/-- One session: adding a group and removing it again restores the session
exactly, under the worker's session invariant. -/
theorem removeGroup_addGroup (s : Session) (g : Nat) (h : sessionInv s) :
    removeGroup (addGroup s g) g = some s := by
  obtain ⟨hcnt, hkeys, hidx⟩ := h
  cases hl : alLookup s.subs g with
  | some c =>
      have hc1 : 1 ≤ c := hcnt (g, c) (alLookup_mem s.subs g c hl)
      unfold addGroup
      rw [hl]
      unfold removeGroup
      simp only [alLookup_alSet]
      have : ¬(c + 1 - 1 = 0) := by omega
      rw [if_neg this]
      have he : c + 1 - 1 = c := by omega
      rw [he, alSet_alSet, alSet_of_lookup s.subs g c hl]
  | none =>
      have hmem : g ∉ s.subs.map Prod.fst := alLookup_none_not_mem s.subs g hl
      have hgl : g ∉ s.groups_list := by rw [hkeys]; exact hmem
      unfold addGroup
      rw [hl]
      unfold removeGroup
      simp only [alLookup_append_single s.subs g 1 hl]
      rw [if_pos trivial]
      rw [alErase_append_single s.subs g 1 hl]
      rw [if_pos (by simp)]
      rw [removeFirst_append_single s.groups_list g hgl]
      have hidx1 : (if s.groups_list.length ≤ s.idx then 0 else s.idx) = s.idx := by
        rcases hidx with hlt | ⟨hnil, hz⟩
        · rw [if_neg (not_le.mpr hlt)]
        · rw [hnil, hz]
          simp
      rw [hidx1]

/-- Claim C9 (confirmed): for every service state satisfying the worker
invariant, ADD(m, g) followed by REMOVE(m, g) leaves the whole session map
- every per-session refcount map, ordered group list and round-robin
cursor - identical to the state before the ADD.  When no session for m
exists, the ADD aborts inside session creation (the TP2Protocol
constructor rejects the tester_id keyword, see claim C5) so only the
tester-id counter, which is outside the subscription state, changes; when
the session exists, the refcount arithmetic restores it exactly. -/
theorem c9_add_remove_roundtrip (st : WorkerState) (m g : Nat)
    (hinv : workerInv st) :
    (applyRemove (applyAdd st m g) m g).sessions = st.sessions := by
  cases hm : alLookup st.sessions m with
  | none =>
      unfold applyAdd getOrCreateSession
      rw [hm]
      unfold applyRemove
      rw [hm]
  | some s =>
      have hs : sessionInv s := hinv (m, s) (alLookup_mem st.sessions m s hm)
      unfold applyAdd getOrCreateSession
      rw [hm]
      unfold applyRemove
      simp only [alLookup_alSet]
      rw [removeGroup_addGroup s g hs]
      simp only [alSet_alSet]
      rw [alSet_of_lookup st.sessions m s hm]

/-- Witness for c9_add_remove_roundtrip: a concrete state with one session
holding group 3 twice; adding and removing group 7 on module 1 restores
the map. -/
theorem c9_add_remove_roundtrip_witness :
    (applyRemove (applyAdd
        { sessions := [(1, { subs := [(3, 2)], groups_list := [3], idx := 0,
                             tester_id := 0x300, connected := true })],
          next_tester_id := 0x301 } 1 7) 1 7).sessions =
      [(1, { subs := [(3, 2)], groups_list := [3], idx := 0,
             tester_id := 0x300, connected := true })] :=
  c9_add_remove_roundtrip _ 1 7 (by decide)

/-! ## Claim C10: the block-ACK gate after a request -/

/-- Claim C10 (confirmed): after sending a KWP request on a connected
channel, exactly one frame is read from the rx id and the request succeeds
only if its byte 0 equals 0xB0 plus the post-increment tx sequence number;
any first frame with a different byte 0 - keep-alive 0xA3, wait 0x9N,
disconnect 0xA8, a data frame - fails the request with the no-ACK
transport error, and the channel stays connected (only the sequence
counter has advanced). -/
theorem c10_ack_gate (ch : Channel) (payload : List Nat) (f : Frame)
    (rest : List Frame) (hc : ch.connected = true)
    (hf : f.getD 0 0 ≠ 0xB0 + (ch.seq_tx + 1) % 16) :
    sendKvpRequest ch payload (f :: rest) =
      (.error .noAck, { ch with seq_tx := (ch.seq_tx + 1) % 16 }) ∧
    ((sendKvpRequest ch payload (f :: rest)).2).connected = true := by
  have hwa : waitAck ((((ch.seq_tx + 1) % 16 : Nat) : Int) - 1) (some f) = false := by
    unfold waitAck
    simp only [decide_eq_false_iff_not]
    intro hEq
    apply hf
    have hlt : (ch.seq_tx + 1) % 16 < 16 := Nat.mod_lt _ (by norm_num)
    omega
  have hmain : sendKvpRequest ch payload (f :: rest) =
      (.error .noAck, { ch with seq_tx := (ch.seq_tx + 1) % 16 }) := by
    unfold sendKvpRequest
    rw [if_neg (by simp [hc])]
    simp only [List.head?_cons]
    rw [hwa]
    rw [if_pos rfl]
  refine ⟨hmain, ?_⟩
  rw [hmain]
  exact hc

/-- Witness for c10_ack_gate: a keep-alive frame 0xA3 arriving in place of
the expected ACK 0xB1 fails the request and leaves the channel connected. -/
theorem c10_ack_gate_witness :
    sendKvpRequest { tester_id := 0x300, tx_id := 0x0740, rx_id := 0x300,
                     seq_tx := 0, seq_rx := 0, connected := true }
        [0x21, 0x01] [[0xA3]] =
      (.error .noAck, { tester_id := 0x300, tx_id := 0x0740, rx_id := 0x300,
                        seq_tx := 1, seq_rx := 0, connected := true }) ∧
    ((sendKvpRequest { tester_id := 0x300, tx_id := 0x0740, rx_id := 0x300,
                       seq_tx := 0, seq_rx := 0, connected := true }
        [0x21, 0x01] [[0xA3]]).2).connected = true :=
  c10_ack_gate _ [0x21, 0x01] [0xA3] [] rfl (by decide)

end TP2

